import Mathlib

/-!
Verification of the Vyom platform outfit-generation core against its design
specification.

The development shallowly embeds the JavaScript source:

* the outfit service's `generateOutfitRecommendation` and its `POST /generate`
  handler (outfit service file);
* the monolithic gateway's inline `POST /outfits/generate` handler
  (production gateway file);
* the microservice gateway's `proxyRequest` error mapping (routing gateway
  file).

Effects are made explicit: `Math.random()` becomes an injected stream
`rand : ℕ → ℚ` consumed in source order (draw `n` is the `n`-th call), and
`Date.now()` becomes an injected clock `clock : ℕ → ℕ` (call `i` is the
read made while building candidate `i`).  Network calls become explicit
outcome values.
-/

namespace Vyom

/-- A clothing item as read by the outfit service composer: display name,
raw category string, and the optional occasion/season tag arrays
(`item.occasions` / `item.seasons` may be absent in the source, hence
`Option`). -/
structure Item where
  name : String
  category : String
  occasions : Option (List String)
  seasons : Option (List String)
deriving Repr, DecidableEq, Inhabited

/-- Weather summary carried in a request body (`weather.temperature`,
`weather.condition`); both fields may be absent. -/
structure Weather where
  temperature : Option ℚ
  condition : Option String
deriving Repr, DecidableEq

/-- Request preferences.  Absent fields are `none`; the composer applies the
source's destructuring defaults (`occasion = 'casual'`, `season = 'all-year'`,
`style = 'comfortable'`) itself.  The `weather` field can be supplied by a
caller; the outfit service composer destructures only the first three
fields. -/
structure Preferences where
  occasion : Option String := none
  season : Option String := none
  style : Option String := none
  weather : Option Weather := none
deriving Repr, DecidableEq

/-- Models `tags?.includes(s)` from the source: `false` when the tag array
is absent (optional chaining yields `undefined`, which is falsy). -/
def includesOpt (tags : Option (List String)) (s : String) : Bool :=
  match tags with
  | some xs => xs.contains s
  | none => false

/-- Models `!occasion || item.occasions?.includes(occasion)` — the only
falsy string is the empty string. -/
def matchesOccasion (occ : String) (item : Item) : Bool :=
  occ == "" || includesOpt item.occasions occ

/-- Models `!season || season === 'all-year' || item.seasons?.includes(season)`. -/
def matchesSeason (sea : String) (item : Item) : Bool :=
  sea == "" || sea == "all-year" || includesOpt item.seasons sea

/-- The composer's eligibility predicate, after the destructuring defaults
are applied to the preference fields. -/
def eligible (prefs : Preferences) (item : Item) : Bool :=
  matchesOccasion (prefs.occasion.getD "casual") item &&
  matchesSeason (prefs.season.getD "all-year") item

/-- Models `availableItems = clothingItems.filter(...)` in the composer. -/
def availableItems (clothingItems : List Item) (prefs : Preferences) : List Item :=
  clothingItems.filter (eligible prefs)

/-- Raw category strings mapping to the top slot. -/
def topCats : List String := ["top", "shirt", "blouse", "t-shirt"]

/-- Raw category strings mapping to the bottom slot. -/
def bottomCats : List String := ["bottom", "pants", "jeans", "skirt", "shorts"]

/-- Raw category strings mapping to the outerwear slot. -/
def outerwearCats : List String := ["outerwear", "jacket", "coat", "blazer"]

/-- Raw category strings mapping to the footwear slot. -/
def footwearCats : List String := ["footwear", "shoes", "boots", "sneakers"]

/-- Raw category strings mapping to the accessory slot. -/
def accessoryCats : List String := ["accessory", "belt", "bag", "jewelry"]

/-- The composer's `categories` record. -/
structure Categories where
  top : List Item
  bottom : List Item
  outerwear : List Item
  footwear : List Item
  accessories : List Item
deriving Repr, DecidableEq

/-- The five slot partitions of the eligible items. -/
def categorize (avail : List Item) : Categories where
  top := avail.filter (fun i => topCats.contains i.category)
  bottom := avail.filter (fun i => bottomCats.contains i.category)
  outerwear := avail.filter (fun i => outerwearCats.contains i.category)
  footwear := avail.filter (fun i => footwearCats.contains i.category)
  accessories := avail.filter (fun i => accessoryCats.contains i.category)

/-- The injected randomness stream is a faithful model of `Math.random()`
exactly when every draw lies in `[0, 1)`. -/
def ValidRand (rand : ℕ → ℚ) : Prop :=
  ∀ n, 0 ≤ rand n ∧ rand n < 1

/-- Models `l[Math.floor(r * l.length)]` — the uniform random pick used
for every slot selection, in both the outfit service and the monolithic
gateway. -/
def pick {α : Type} (l : List α) (r : ℚ) : Option α :=
  l.get? ⌊r * (l.length : ℚ)⌋₊

/-- Models `if (l.length > 0) { push(l[Math.floor(rand * l.length)]) }`:
the pushed items (as a zero- or one-element list) together with the next
unconsumed draw index. -/
def optPick (l : List Item) (rand : ℕ → ℚ) (k : ℕ) : List Item × ℕ :=
  if 0 < l.length then ((pick l (rand k)).toList, k + 1) else ([], k)

/-- Models `if (l.length > 0 && rand > thr) { push(pick) }`: the coin draw
is consumed whenever `l` is non-empty (JS `&&` short-circuit), the pick draw
only when the coin succeeds. -/
def coinPick (l : List Item) (thr : ℚ) (rand : ℕ → ℚ) (k : ℕ) : List Item × ℕ :=
  if 0 < l.length then
    if rand k > thr then ((pick l (rand (k + 1))).toList, k + 2)
    else ([], k + 1)
  else ([], k)

/-- One generated outfit: `id`, the echoed occasion/season/style, the pushed
items in push order, the confidence draw, and the rendered description. -/
structure Outfit where
  id : String
  occasion : String
  season : String
  style : String
  items : List Item
  confidence : ℚ
  description : String
deriving Repr, DecidableEq, Inhabited

/-- Iteration `i` of the composer's generation loop starting at draw index
`k`: the confidence draw comes first (the object literal is evaluated before
the pushes), then top, bottom, outerwear (coin `> 0.5`), footwear and
accessory (coin `> 0.3`) selections in source order.  Returns the built
outfit and the next unconsumed draw index. -/
def buildOutfit (cats : Categories) (occ sea sty : String) (rand : ℕ → ℚ)
    (clock : ℕ → ℕ) (i k : ℕ) : Outfit × ℕ :=
  let conf := (0.85 : ℚ) + rand k * 0.1
  let p1 := optPick cats.top rand (k + 1)
  let p2 := optPick cats.bottom rand p1.2
  let p3 := coinPick cats.outerwear 0.5 rand p2.2
  let p4 := optPick cats.footwear rand p3.2
  let p5 := coinPick cats.accessories 0.3 rand p4.2
  let theItems := p1.1 ++ p2.1 ++ p3.1 ++ p4.1 ++ p5.1
  ({ id := "outfit_" ++ toString (clock i) ++ "_" ++ toString i
     occasion := occ
     season := sea
     style := sty
     items := theItems
     confidence := conf
     description := "Perfect " ++ occ ++ " outfit for " ++ sea ++ ": " ++
       String.intercalate ", " (theItems.map Item.name) }, p5.2)

/-- The `for (let i = 0; i < 3; i++)` loop: candidate `i` is kept when it has
at least two items (`outfit.items.length >= 2`); the shared draw index is
threaded through the iterations. -/
def genLoop (cats : Categories) (occ sea sty : String) (rand : ℕ → ℚ)
    (clock : ℕ → ℕ) : ℕ → ℕ → ℕ → List Outfit
  | _, 0, _ => []
  | i, fuel + 1, k =>
    if 2 ≤ ((buildOutfit cats occ sea sty rand clock i k).1).items.length then
      (buildOutfit cats occ sea sty rand clock i k).1 ::
        genLoop cats occ sea sty rand clock (i + 1) fuel
          (buildOutfit cats occ sea sty rand clock i k).2
    else
      genLoop cats occ sea sty rand clock (i + 1) fuel
        (buildOutfit cats occ sea sty rand clock i k).2

/-- `generateOutfitRecommendation(clothingItems, preferences)` of the outfit
service, with the randomness stream and the `Date.now()` clock injected. -/
def generateOutfitRecommendation (clothingItems : List Item)
    (prefs : Preferences) (rand : ℕ → ℚ) (clock : ℕ → ℕ) : List Outfit :=
  let occ := prefs.occasion.getD "casual"
  let sea := prefs.season.getD "all-year"
  let sty := prefs.style.getD "comfortable"
  let cats := categorize (availableItems clothingItems prefs)
  (genLoop cats occ sea sty rand clock 0 3 0).filter
    (fun o => 0 < o.items.length)

/-- Outcome of the outfit service's wardrobe fetch
(`axios.get(WARDROBE_SERVICE_URL/items)`): a response carrying the upstream
`success` flag and item list, a connection-refused failure, a DNS failure
(`ENOTFOUND`), or any other failure. -/
inductive FetchOutcome where
  | ok (success : Bool) (items : List Item)
  | errConnRefused
  | errNotFound
  | errOther
deriving Repr, DecidableEq

/-- Response of the outfit service's `POST /generate`, keeping the fields
the claims are about (`count` and `wardrobeItemsCount` of the non-empty
success body are the lengths of the two carried lists). -/
inductive GenResponse where
  | success (outfits : List Outfit) (message : Option String)
  | fetchFailed
  | unavailable
  | serverError
deriving Repr, DecidableEq

/-- HTTP status of each `POST /generate` response shape. -/
def GenResponse.status : GenResponse → ℕ
  | .success _ _ => 200
  | .fetchFailed => 400
  | .unavailable => 503
  | .serverError => 500

/-- The outfit service's `POST /generate` handler after authentication: on a
fetch response it checks the upstream `success` flag, returns the empty-
wardrobe success message when the catalog is empty, and otherwise invokes
the composer; `ECONNREFUSED`/`ENOTFOUND` map to the 503 fallback and any
other failure to a 500. -/
def generateHandler (fo : FetchOutcome) (prefs : Preferences) (rand : ℕ → ℚ)
    (clock : ℕ → ℕ) : GenResponse :=
  match fo with
  | .ok success items =>
    if !success then .fetchFailed
    else if items.length = 0 then
      .success [] (some "No clothing items found. Add some items to your wardrobe first!")
    else
      .success (generateOutfitRecommendation items prefs rand clock) none
  | .errConnRefused => .unavailable
  | .errNotFound => .unavailable
  | .errOther => .serverError

end Vyom

namespace Gateway

open Vyom (Weather ValidRand)

/-- A clothing item as stored in the monolithic gateway's in-memory list
(only the fields its generate endpoint reads). -/
structure GItem where
  userId : String
  name : String
  category : String
deriving Repr, DecidableEq

/-- Models `s1 || s2` for the gateway's string defaults: the empty string
is falsy. -/
def jsOr (o : Option String) (d : String) : String :=
  match o with
  | some s => if s == "" then d else s
  | none => d

/-- Models `weather?.temperature < 70`: `false` when `weather` or its
temperature is absent (`undefined < 70` is false). -/
def tempBelow70 (w : Option Weather) : Bool :=
  match w with
  | some weather =>
    match weather.temperature with
    | some t => decide (t < 70)
    | none => false
  | none => false

/-- The single outfit built by the monolithic gateway's
`POST /outfits/generate`.  The source renders `id` as
`Math.random().toString(36).substr(2, 9)`; the model keeps the raw draw as
`idSeed`. -/
structure GwOutfit where
  idSeed : ℚ
  occasion : String
  scheduledFor : String
  weather : Weather
  items : List GItem
  confidence : ℚ
deriving Repr, DecidableEq

/-- Response of the monolithic gateway's `POST /outfits/generate`. -/
inductive GwResponse where
  | success (outfit : GwOutfit)
  | noItems
  | serverError
deriving Repr, DecidableEq

/-- HTTP status of each monolithic-gateway generate response: the empty
wardrobe case is `res.status(400)` with error
`'No clothing items found. Add some items first!'`. -/
def GwResponse.status : GwResponse → ℕ
  | .success _ => 200
  | .noItems => 400
  | .serverError => 500

/-- The monolithic gateway's `POST /outfits/generate` handler after
authentication: filters the in-memory items to the requesting user, rejects
an empty wardrobe with a 400, then builds one outfit — the id draw comes
first (object literal), a random top whenever one exists, and a random
outerwear item exactly when outerwear exists and the supplied
`weather.temperature` is below 70. -/
def outfitsGenerate (userUuid : String) (clothingItems : List GItem)
    (occasion : Option String) (weather : Option Weather)
    (date : Option String) (rand : ℕ → ℚ) (today : String) : GwResponse :=
  let userItems := clothingItems.filter (fun i => i.userId == userUuid)
  if userItems.length = 0 then .noItems
  else
    let tops := userItems.filter (fun i => i.category == "top")
    let outerwear := userItems.filter (fun i => i.category == "outerwear")
    let p1 : List GItem × ℕ :=
      if 0 < tops.length then ((Vyom.pick tops (rand 1)).toList, 2) else ([], 1)
    let theItems :=
      if 0 < outerwear.length && tempBelow70 weather then
        p1.1 ++ (Vyom.pick outerwear (rand p1.2)).toList
      else p1.1
    .success
      { idSeed := rand 0
        occasion := jsOr occasion "casual"
        scheduledFor := jsOr date today
        weather := weather.getD { temperature := some 72, condition := some "sunny" }
        items := theItems
        confidence := 0.85 }

/-- Outcome of the routing gateway's proxied `axios` call: the downstream
responded (possibly with an error status, re-emitted verbatim), the
connection was refused, or some other failure occurred. -/
inductive ProxyOutcome where
  | response (status : ℕ) (body : String)
  | connRefused
  | otherFailure
deriving Repr, DecidableEq

/-- Status and body the routing gateway sends back to its client. -/
structure ProxyReply where
  status : ℕ
  body : String
deriving Repr, DecidableEq

/-- Error mapping of the routing gateway's `proxyRequest`: any downstream
response passes through unchanged, `ECONNREFUSED` becomes a 503, anything
else a 500. -/
def proxyRequest : ProxyOutcome → ProxyReply
  | .response s b => ⟨s, b⟩
  | .connRefused => ⟨503, "Service temporarily unavailable"⟩
  | .otherFailure => ⟨500, "Gateway error"⟩

end Gateway

namespace Vyom

/-- The eligibility rule exactly as the specification words it, written for
comparison with the source's `eligible` (claim C4): occasion passes when the
preference's occasion is unset or listed in the item's occasion tags; season
passes when the preference's season is unset, equals `"all-year"`, or is
listed in the item's season tags. -/
def specEligible (prefs : Preferences) (item : Item) : Bool :=
  (match prefs.occasion with
   | none => true
   | some occ => includesOpt item.occasions occ) &&
  (match prefs.season with
   | none => true
   | some sea => sea == "all-year" || includesOpt item.seasons sea)

/-! ### Concrete fixtures used by the claim instances -/

/-- The all-zero randomness stream (a valid `Math.random()` trace). -/
def randZero : ℕ → ℚ := fun _ => 0

/-- A constant clock. -/
def clockZero : ℕ → ℕ := fun _ => 0

/-- A different constant clock. -/
def clockOne : ℕ → ℕ := fun _ => 1

/-- Scenario A's top item. -/
def whiteTee : Item := ⟨"White Tee", "top", some ["casual"], none⟩

/-- Scenario A's bottom item. -/
def blueJeans : Item := ⟨"Blue Jeans", "jeans", some ["casual"], some ["all-year"]⟩

/-- A footwear item tagged casual. -/
def sneakers : Item := ⟨"Sneakers", "sneakers", some ["casual"], some ["all-year"]⟩

/-- An outerwear item tagged casual. -/
def denimJacket : Item := ⟨"Denim Jacket", "jacket", some ["casual"], none⟩

/-- An item carrying only the formal occasion tag. -/
def silkGown : Item := ⟨"Silk Gown", "top", some ["formal"], some ["summer"]⟩

/-- A casual-occasion preference. -/
def prefsCasual : Preferences := { occasion := some "casual" }

/-- A casual-occasion preference that also supplies a 60°F weather summary
(below the 70°F cold-weather threshold). -/
def prefsCold : Preferences :=
  { occasion := some "casual", weather := some ⟨some 60, some "cold"⟩ }

/-- A gateway wardrobe item owned by user `"u1"` in the outerwear slot. -/
def jacketG : Gateway.GItem := ⟨"u1", "Jacket", "outerwear"⟩

end Vyom

namespace Vyom

/-! ### Basic facts about the random pick -/

theorem pick_mem {α : Type} {l : List α} {r : ℚ} {x : α}
    (h : pick l r = some x) : x ∈ l :=
  List.get?_mem h

theorem pick_some {α : Type} {l : List α} {r : ℚ}
    (h0 : 0 ≤ r) (h1 : r < 1) (hne : l ≠ []) :
    ∃ x, pick l r = some x ∧ x ∈ l := by
  have hlen : 0 < l.length := List.length_pos.mpr hne
  have hmul0 : 0 ≤ r * (l.length : ℚ) := by positivity
  have hlt : r * (l.length : ℚ) < (l.length : ℚ) := by
    calc r * (l.length : ℚ) < 1 * (l.length : ℚ) := by
          apply mul_lt_mul_of_pos_right h1
          exact_mod_cast hlen
      _ = (l.length : ℚ) := one_mul _
  have hfl : ⌊r * (l.length : ℚ)⌋₊ < l.length := by
    rw [Nat.floor_lt hmul0]
    exact_mod_cast hlt
  exact ⟨l.get ⟨_, hfl⟩, List.get?_eq_get hfl, List.get_mem ..⟩

theorem pick_singleton {α : Type} {x : α} {r : ℚ} (h0 : 0 ≤ r) (h1 : r < 1) :
    pick [x] r = some x := by
  obtain ⟨y, hy, hmem⟩ := pick_some h0 h1 (l := [x]) (by simp)
  rw [hy]
  simpa using hmem

/-! ### Facts about the slot selection helpers -/

theorem optPick_fst_subset {l : List Item} {rand : ℕ → ℚ} {k : ℕ} {x : Item}
    (h : x ∈ (optPick l rand k).1) : x ∈ l := by
  unfold optPick at h
  split at h
  · exact pick_mem (by simpa [Option.mem_toList] using h)
  · simp at h

theorem coinPick_fst_subset {l : List Item} {thr : ℚ} {rand : ℕ → ℚ} {k : ℕ}
    {x : Item} (h : x ∈ (coinPick l thr rand k).1) : x ∈ l := by
  unfold coinPick at h
  split at h
  · split at h
    · exact pick_mem (by simpa [Option.mem_toList] using h)
    · simp at h
  · simp at h

theorem optPick_fst_of_ne {l : List Item} {rand : ℕ → ℚ} {k : ℕ}
    (hne : l ≠ []) (h0 : 0 ≤ rand k) (h1 : rand k < 1) :
    ∃ x ∈ l, (optPick l rand k).1 = [x] := by
  obtain ⟨x, hx, hmem⟩ := pick_some h0 h1 hne
  refine ⟨x, hmem, ?_⟩
  unfold optPick
  rw [if_pos (List.length_pos.mpr hne), hx]
  rfl

theorem countP_eq_zero_of_subset {p : Item → Bool} {l2 l : List Item}
    (hsub : ∀ x ∈ l2, x ∈ l) (hall : ∀ x ∈ l, p x = false) :
    l2.countP p = 0 := by
  rw [List.countP_eq_zero]
  intro a ha
  simp [hall a (hsub a ha)]

theorem optPick_countP_one {l : List Item} {rand : ℕ → ℚ} (p : Item → Bool)
    (hall : ∀ x ∈ l, p x = true) (hne : l ≠ []) (hr : ValidRand rand)
    (k : ℕ) : ((optPick l rand k).1).countP p = 1 := by
  obtain ⟨x, hmem, hx⟩ := optPick_fst_of_ne hne (hr k).1 (hr k).2
  rw [hx]
  simp [List.countP_cons, hall x hmem]

theorem optPick_countP_zero {l : List Item} {rand : ℕ → ℚ} (p : Item → Bool)
    (hall : ∀ x ∈ l, p x = false) (k : ℕ) :
    ((optPick l rand k).1).countP p = 0 :=
  countP_eq_zero_of_subset (fun _ hx => optPick_fst_subset hx) hall

theorem coinPick_countP_zero {l : List Item} {thr : ℚ} {rand : ℕ → ℚ}
    (p : Item → Bool) (hall : ∀ x ∈ l, p x = false) (k : ℕ) :
    ((coinPick l thr rand k).1).countP p = 0 :=
  countP_eq_zero_of_subset (fun _ hx => coinPick_fst_subset hx) hall

end Vyom

namespace Vyom

/-! ### Facts about a single built outfit -/

theorem buildOutfit_items (cats : Categories) (occ sea sty : String)
    (rand : ℕ → ℚ) (clock : ℕ → ℕ) (i k : ℕ) :
    ((buildOutfit cats occ sea sty rand clock i k).1).items =
      (optPick cats.top rand (k + 1)).1 ++
      (optPick cats.bottom rand (optPick cats.top rand (k + 1)).2).1 ++
      (coinPick cats.outerwear 0.5 rand
        (optPick cats.bottom rand (optPick cats.top rand (k + 1)).2).2).1 ++
      (optPick cats.footwear rand
        (coinPick cats.outerwear 0.5 rand
          (optPick cats.bottom rand (optPick cats.top rand (k + 1)).2).2).2).1 ++
      (coinPick cats.accessories 0.3 rand
        (optPick cats.footwear rand
          (coinPick cats.outerwear 0.5 rand
            (optPick cats.bottom rand
              (optPick cats.top rand (k + 1)).2).2).2).2).1 := rfl

theorem buildOutfit_confidence (cats : Categories) (occ sea sty : String)
    (rand : ℕ → ℚ) (clock : ℕ → ℕ) (i k : ℕ) :
    ((buildOutfit cats occ sea sty rand clock i k).1).confidence =
      (0.85 : ℚ) + rand k * 0.1 := rfl

theorem mem_buildOutfit_items {cats : Categories} {occ sea sty : String}
    {rand : ℕ → ℚ} {clock : ℕ → ℕ} {i k : ℕ} {x : Item}
    (h : x ∈ ((buildOutfit cats occ sea sty rand clock i k).1).items) :
    x ∈ cats.top ∨ x ∈ cats.bottom ∨ x ∈ cats.outerwear ∨
      x ∈ cats.footwear ∨ x ∈ cats.accessories := by
  rw [buildOutfit_items] at h
  simp only [List.mem_append] at h
  rcases h with ((((h | h) | h) | h) | h)
  · exact Or.inl (optPick_fst_subset h)
  · exact Or.inr (Or.inl (optPick_fst_subset h))
  · exact Or.inr (Or.inr (Or.inl (coinPick_fst_subset h)))
  · exact Or.inr (Or.inr (Or.inr (Or.inl (optPick_fst_subset h))))
  · exact Or.inr (Or.inr (Or.inr (Or.inr (coinPick_fst_subset h))))

theorem buildOutfit_countP_top {cats : Categories} {occ sea sty : String}
    {rand : ℕ → ℚ} {clock : ℕ → ℕ} {i k : ℕ} (p : Item → Bool)
    (hr : ValidRand rand) (hne : cats.top ≠ [])
    (ht : ∀ x ∈ cats.top, p x = true)
    (hb : ∀ x ∈ cats.bottom, p x = false)
    (ho : ∀ x ∈ cats.outerwear, p x = false)
    (hf : ∀ x ∈ cats.footwear, p x = false)
    (ha : ∀ x ∈ cats.accessories, p x = false) :
    ((buildOutfit cats occ sea sty rand clock i k).1).items.countP p = 1 := by
  rw [buildOutfit_items]
  simp only [List.countP_append]
  rw [optPick_countP_one p ht hne hr, optPick_countP_zero p hb,
    coinPick_countP_zero p ho, optPick_countP_zero p hf,
    coinPick_countP_zero p ha]

theorem buildOutfit_countP_bottom {cats : Categories} {occ sea sty : String}
    {rand : ℕ → ℚ} {clock : ℕ → ℕ} {i k : ℕ} (p : Item → Bool)
    (hr : ValidRand rand) (hne : cats.bottom ≠ [])
    (hb : ∀ x ∈ cats.bottom, p x = true)
    (ht : ∀ x ∈ cats.top, p x = false)
    (ho : ∀ x ∈ cats.outerwear, p x = false)
    (hf : ∀ x ∈ cats.footwear, p x = false)
    (ha : ∀ x ∈ cats.accessories, p x = false) :
    ((buildOutfit cats occ sea sty rand clock i k).1).items.countP p = 1 := by
  rw [buildOutfit_items]
  simp only [List.countP_append]
  rw [optPick_countP_zero p ht, optPick_countP_one p hb hne hr,
    coinPick_countP_zero p ho, optPick_countP_zero p hf,
    coinPick_countP_zero p ha]

/-! ### Facts about the generation loop -/

theorem genLoop_length_le (cats : Categories) (occ sea sty : String)
    (rand : ℕ → ℚ) (clock : ℕ → ℕ) :
    ∀ (fuel i k : ℕ),
      (genLoop cats occ sea sty rand clock i fuel k).length ≤ fuel := by
  intro fuel
  induction fuel with
  | zero => intro i k; simp [genLoop]
  | succ n ih =>
    intro i k
    simp only [genLoop]
    split
    · simp only [List.length_cons]
      exact Nat.succ_le_succ (ih (i + 1) _)
    · exact (ih (i + 1) _).trans (Nat.le_succ n)

theorem mem_genLoop {cats : Categories} {occ sea sty : String}
    {rand : ℕ → ℚ} {clock : ℕ → ℕ} :
    ∀ {fuel i k : ℕ} {o : Outfit},
      o ∈ genLoop cats occ sea sty rand clock i fuel k →
      (∃ j k2, o = (buildOutfit cats occ sea sty rand clock j k2).1) ∧
        2 ≤ o.items.length := by
  intro fuel
  induction fuel with
  | zero => intro i k o h; simp [genLoop] at h
  | succ n ih =>
    intro i k o h
    simp only [genLoop] at h
    split at h
    · rcases List.mem_cons.mp h with rfl | h2
      · exact ⟨⟨i, k, rfl⟩, by assumption⟩
      · exact ih h2
    · exact ih h

theorem mem_gen_unfold {clothingItems : List Item} {prefs : Preferences}
    {rand : ℕ → ℚ} {clock : ℕ → ℕ} {o : Outfit}
    (h : o ∈ generateOutfitRecommendation clothingItems prefs rand clock) :
    o ∈ genLoop (categorize (availableItems clothingItems prefs))
      (prefs.occasion.getD "casual") (prefs.season.getD "all-year")
      (prefs.style.getD "comfortable") rand clock 0 3 0 :=
  (List.mem_filter.mp h).1

end Vyom

namespace Vyom

/-! ### The five slot category lists are pairwise disjoint -/

theorem memStr_of_contains {l : List String} {c : String}
    (h : l.contains c = true) : c ∈ l := by
  simpa using h

theorem topCats_contains_false {c : String}
    (h : c ∈ bottomCats ∨ c ∈ outerwearCats ∨ c ∈ footwearCats ∨
      c ∈ accessoryCats) :
    topCats.contains c = false := by
  rcases h with h | h | h | h <;> fin_cases h <;> rfl

theorem bottomCats_contains_false {c : String}
    (h : c ∈ topCats ∨ c ∈ outerwearCats ∨ c ∈ footwearCats ∨
      c ∈ accessoryCats) :
    bottomCats.contains c = false := by
  rcases h with h | h | h | h <;> fin_cases h <;> rfl

/-! ### Slot membership facts for the partition of the eligible items -/

theorem categorize_top_pred {avail : List Item} {x : Item}
    (h : x ∈ (categorize avail).top) : topCats.contains x.category = true :=
  (List.mem_filter.mp h).2

theorem categorize_bottom_pred {avail : List Item} {x : Item}
    (h : x ∈ (categorize avail).bottom) :
    bottomCats.contains x.category = true :=
  (List.mem_filter.mp h).2

theorem categorize_outerwear_pred {avail : List Item} {x : Item}
    (h : x ∈ (categorize avail).outerwear) :
    outerwearCats.contains x.category = true :=
  (List.mem_filter.mp h).2

theorem categorize_footwear_pred {avail : List Item} {x : Item}
    (h : x ∈ (categorize avail).footwear) :
    footwearCats.contains x.category = true :=
  (List.mem_filter.mp h).2

theorem categorize_accessories_pred {avail : List Item} {x : Item}
    (h : x ∈ (categorize avail).accessories) :
    accessoryCats.contains x.category = true :=
  (List.mem_filter.mp h).2

end Vyom

namespace Vyom

theorem randZero_valid : ValidRand randZero := by
  intro n
  constructor <;> norm_num [randZero]

/-- C2: with at least one eligible top-slot item and one eligible bottom-slot
item, `generateOutfitRecommendation` returns at most 3 candidates, each with
exactly one top-slot item, exactly one bottom-slot item, and a confidence in
[0.85, 0.95]. -/
theorem c2_bounds (clothingItems : List Item) (prefs : Preferences)
    (rand : ℕ → ℚ) (clock : ℕ → ℕ) (hr : ValidRand rand)
    (htop : (categorize (availableItems clothingItems prefs)).top ≠ [])
    (hbot : (categorize (availableItems clothingItems prefs)).bottom ≠ []) :
    (generateOutfitRecommendation clothingItems prefs rand clock).length ≤ 3 ∧
    ∀ o ∈ generateOutfitRecommendation clothingItems prefs rand clock,
      o.items.countP (fun it => topCats.contains it.category) = 1 ∧
      o.items.countP (fun it => bottomCats.contains it.category) = 1 ∧
      (0.85 : ℚ) ≤ o.confidence ∧ o.confidence ≤ (0.95 : ℚ) := by
  constructor
  · exact le_trans (List.length_filter_le _ _)
      (genLoop_length_le _ _ _ _ _ _ 3 0 0)
  · intro o ho
    obtain ⟨⟨j, k2, rfl⟩, _⟩ := mem_genLoop (mem_gen_unfold ho)
    refine ⟨?_, ?_, ?_, ?_⟩
    · exact buildOutfit_countP_top _ hr htop
        (fun x hx => categorize_top_pred hx)
        (fun x hx => topCats_contains_false
          (Or.inl (memStr_of_contains (categorize_bottom_pred hx))))
        (fun x hx => topCats_contains_false
          (Or.inr (Or.inl (memStr_of_contains (categorize_outerwear_pred hx)))))
        (fun x hx => topCats_contains_false
          (Or.inr (Or.inr (Or.inl (memStr_of_contains (categorize_footwear_pred hx))))))
        (fun x hx => topCats_contains_false
          (Or.inr (Or.inr (Or.inr (memStr_of_contains (categorize_accessories_pred hx))))))
    · exact buildOutfit_countP_bottom _ hr hbot
        (fun x hx => categorize_bottom_pred hx)
        (fun x hx => bottomCats_contains_false
          (Or.inl (memStr_of_contains (categorize_top_pred hx))))
        (fun x hx => bottomCats_contains_false
          (Or.inr (Or.inl (memStr_of_contains (categorize_outerwear_pred hx)))))
        (fun x hx => bottomCats_contains_false
          (Or.inr (Or.inr (Or.inl (memStr_of_contains (categorize_footwear_pred hx))))))
        (fun x hx => bottomCats_contains_false
          (Or.inr (Or.inr (Or.inr (memStr_of_contains (categorize_accessories_pred hx))))))
    · rw [buildOutfit_confidence]
      have := mul_nonneg (hr k2).1 (by norm_num : (0 : ℚ) ≤ 0.1)
      linarith
    · rw [buildOutfit_confidence]
      have h1 : rand k2 * 0.1 ≤ 1 * 0.1 :=
        mul_le_mul_of_nonneg_right (le_of_lt (hr k2).2) (by norm_num)
      linarith

end Vyom

namespace Vyom

/-! ### Evaluation helpers for the concrete fixtures -/

theorem zero_gt_half_false : ((0 : ℚ) > 0.5) = False := by norm_num

theorem zero_gt_threeTenths_false : ((0 : ℚ) > 0.3) = False := by norm_num

theorem pick_zero {α : Type} (l : List α) : pick l (0 : ℚ) = l.get? 0 := by
  simp [pick]

theorem genA_length :
    (generateOutfitRecommendation [whiteTee, blueJeans] prefsCasual
      randZero clockZero).length = 3 := by
  simp [generateOutfitRecommendation, availableItems, eligible, matchesOccasion,
    matchesSeason, includesOpt, categorize, genLoop, buildOutfit, optPick,
    coinPick, pick_zero, randZero, clockZero, whiteTee, blueJeans, prefsCasual,
    topCats, bottomCats, outerwearCats, footwearCats, accessoryCats,
    zero_gt_half_false, zero_gt_threeTenths_false]

theorem headI_mem_of_ne_nil {α : Type} [Inhabited α] {l : List α}
    (h : l ≠ []) : l.headI ∈ l := by
  cases l with
  | nil => exact absurd rfl h
  | cons a t => simp

theorem genA_ne_nil :
    generateOutfitRecommendation [whiteTee, blueJeans] prefsCasual
      randZero clockZero ≠ [] := by
  apply List.ne_nil_of_length_pos
  rw [genA_length]
  norm_num

theorem genA_head_items :
    ((generateOutfitRecommendation [whiteTee, blueJeans] prefsCasual
      randZero clockZero).headI).items = [whiteTee, blueJeans] := by
  simp [generateOutfitRecommendation, availableItems, eligible, matchesOccasion,
    matchesSeason, includesOpt, categorize, genLoop, buildOutfit, optPick,
    coinPick, pick_zero, randZero, clockZero, whiteTee, blueJeans, prefsCasual,
    topCats, bottomCats, outerwearCats, footwearCats, accessoryCats,
    zero_gt_half_false, zero_gt_threeTenths_false]

/-- Closed instance of `c2_bounds` at Scenario A's wardrobe, applied to the
first returned candidate. -/
theorem c2_witness :
    (generateOutfitRecommendation [whiteTee, blueJeans] prefsCasual
      randZero clockZero).length ≤ 3 ∧
    ((generateOutfitRecommendation [whiteTee, blueJeans] prefsCasual
      randZero clockZero).headI).items.countP
        (fun it => topCats.contains it.category) = 1 ∧
    ((generateOutfitRecommendation [whiteTee, blueJeans] prefsCasual
      randZero clockZero).headI).items.countP
        (fun it => bottomCats.contains it.category) = 1 := by
  have h := c2_bounds [whiteTee, blueJeans] prefsCasual randZero clockZero
    randZero_valid (by decide) (by decide)
  have h2 := h.2 _ (headI_mem_of_ne_nil genA_ne_nil)
  exact ⟨h.1, h2.1, h2.2.1⟩

end Vyom

namespace Vyom

/-- C1: the claim says that with no eligible top-slot item the composer
returns an empty sequence (equivalently, every candidate holds a top and a
bottom).  The code's own comment (`// At least top + bottom`) states that
intent, but the guard only checks `outfit.items.length >= 2`: on a wardrobe
holding just a bottom and a footwear item it returns three candidates, none
containing a top-slot item. -/
theorem c1_code_bug :
    (categorize (availableItems [blueJeans, sneakers] {})).top = [] ∧
    (generateOutfitRecommendation [blueJeans, sneakers] {} randZero
      clockZero).length = 3 ∧
    (generateOutfitRecommendation [blueJeans, sneakers] {} randZero
      clockZero).all
      (fun o => o.items.countP (fun it => topCats.contains it.category) == 0) =
      true := by
  refine ⟨by decide, ?_, ?_⟩ <;>
    simp [generateOutfitRecommendation, availableItems, eligible,
      matchesOccasion, matchesSeason, includesOpt, categorize, genLoop,
      buildOutfit, optPick, coinPick, pick_zero, randZero, clockZero,
      blueJeans, sneakers, topCats, bottomCats, outerwearCats, footwearCats,
      accessoryCats, zero_gt_half_false, zero_gt_threeTenths_false]

/-- C3 counterexample: the outfit service composer ignores the supplied
weather entirely.  With a 60°F weather summary in the preferences and an
eligible outerwear item, a randomness trace whose coin draws stay at 0 (so
never exceed the 0.5 threshold) yields three candidates, none containing an
outerwear selection. -/
theorem c3_counterexample :
    (categorize (availableItems [whiteTee, blueJeans, denimJacket]
      prefsCold)).outerwear = [denimJacket] ∧
    Gateway.tempBelow70 prefsCold.weather = true ∧
    (generateOutfitRecommendation [whiteTee, blueJeans, denimJacket] prefsCold
      randZero clockZero).length = 3 ∧
    (generateOutfitRecommendation [whiteTee, blueJeans, denimJacket] prefsCold
      randZero clockZero).all
      (fun o =>
        o.items.countP (fun it => outerwearCats.contains it.category) == 0) =
      true := by
  refine ⟨by decide, by norm_num [Gateway.tempBelow70, prefsCold], ?_, ?_⟩ <;>
    simp [generateOutfitRecommendation, availableItems, eligible,
      matchesOccasion, matchesSeason, includesOpt, categorize, genLoop,
      buildOutfit, optPick, coinPick, pick_zero, randZero, clockZero,
      whiteTee, blueJeans, denimJacket, prefsCold, topCats, bottomCats,
      outerwearCats, footwearCats, accessoryCats, zero_gt_half_false,
      zero_gt_threeTenths_false]

end Vyom

namespace Gateway

open Vyom (ValidRand randZero randZero_valid jacketG)

/-- C3 amended: the cold-weather forcing lives in the monolithic gateway's
inline generator.  Whenever the request supplies `weather.temperature`
below 70 and the user owns at least one outerwear item, the returned outfit
contains an outerwear selection. -/
theorem c3_amended (uuid : String) (clothingItems : List GItem)
    (occasion : Option String) (weather : Option Vyom.Weather)
    (date : Option String) (rand : ℕ → ℚ) (today : String)
    (hr : ValidRand rand)
    (hout : ∃ itm ∈ clothingItems, itm.userId = uuid ∧
      itm.category = "outerwear")
    (htemp : tempBelow70 weather = true) :
    ∃ o, outfitsGenerate uuid clothingItems occasion weather date rand today =
        .success o ∧ ∃ itm ∈ o.items, itm.category = "outerwear" := by
  obtain ⟨w, hw, hwu, hwc⟩ := hout
  have hwmem : w ∈ clothingItems.filter (fun i => i.userId == uuid) :=
    List.mem_filter.mpr ⟨hw, by simp [hwu]⟩
  have hlen0 :
      ¬ (clothingItems.filter (fun i => i.userId == uuid)).length = 0 := by
    have := List.length_pos.mpr (List.ne_nil_of_mem hwmem)
    omega
  have hwo : w ∈ (clothingItems.filter (fun i => i.userId == uuid)).filter
      (fun i => i.category == "outerwear") :=
    List.mem_filter.mpr ⟨hwmem, by simp [hwc]⟩
  have hone : (clothingItems.filter (fun i => i.userId == uuid)).filter
      (fun i => i.category == "outerwear") ≠ [] :=
    List.ne_nil_of_mem hwo
  simp only [outfitsGenerate]
  rw [if_neg hlen0]
  refine ⟨_, rfl, ?_⟩
  have hcond : (0 < ((clothingItems.filter (fun i => i.userId == uuid)).filter
      (fun i => i.category == "outerwear")).length && tempBelow70 weather) =
      true := by
    rw [Bool.and_eq_true, htemp]
    refine ⟨?_, rfl⟩
    simp only [decide_eq_true_eq]
    exact List.length_pos.mpr hone
  show ∃ itm ∈ _, itm.category = "outerwear"
  by_cases htl : 0 < ((clothingItems.filter (fun i => i.userId == uuid)).filter
      (fun i => i.category == "top")).length
  · rw [if_pos htl]
    simp only [if_pos hcond]
    obtain ⟨x, hx, hxm⟩ := Vyom.pick_some (hr 2).1 (hr 2).2 hone
    refine ⟨x, ?_, ?_⟩
    · rw [hx]
      exact List.mem_append_right _ (by simp)
    · simpa using (List.mem_filter.mp hxm).2
  · rw [if_neg htl]
    simp only [if_pos hcond]
    obtain ⟨x, hx, hxm⟩ := Vyom.pick_some (hr 1).1 (hr 1).2 hone
    refine ⟨x, ?_, ?_⟩
    · rw [hx]
      exact List.mem_append_right _ (by simp)
    · simpa using (List.mem_filter.mp hxm).2

/-- Closed instance of `c3_amended`: a single outerwear item and a 60°F
weather summary. -/
theorem c3_amended_witness :
    ∃ o, outfitsGenerate "u1" [jacketG] none
        (some ⟨some 60, some "cold"⟩) none randZero "2026-02-03" =
        .success o ∧ ∃ itm ∈ o.items, itm.category = "outerwear" :=
  c3_amended "u1" [jacketG] none (some ⟨some 60, some "cold"⟩) none randZero
    "2026-02-03" randZero_valid ⟨jacketG, by simp [jacketG], rfl, rfl⟩
    (by norm_num [tempBelow70])

end Gateway

namespace Vyom

/-- C4 counterexample: with no occasion supplied, the spec's wording makes
every item occasion-eligible, but the code's destructuring default turns the
unset occasion into `"casual"`, so an item tagged only `"formal"` is
rejected. -/
theorem c4_counterexample :
    eligible {} silkGown = false ∧ specEligible {} silkGown = true := by
  constructor <;> decide

/-- C4 amended: eligibility is decided by the effective preference values
after the destructuring defaults — occasion defaults to `"casual"` and
season to `"all-year"` — so an unset occasion still requires the `"casual"`
tag, while the default season passes every item. -/
theorem c4_amended (prefs : Preferences) (item : Item) :
    eligible prefs item = true ↔
      ((prefs.occasion.getD "casual" = "" ∨
        ∃ tags, item.occasions = some tags ∧
          prefs.occasion.getD "casual" ∈ tags) ∧
       (prefs.season.getD "all-year" = "" ∨
        prefs.season.getD "all-year" = "all-year" ∨
        ∃ tags, item.seasons = some tags ∧
          prefs.season.getD "all-year" ∈ tags)) := by
  obtain ⟨nm, cat, occs, seas⟩ := item
  unfold eligible matchesOccasion matchesSeason includesOpt
  cases occs <;> cases seas <;> simp [or_assoc]

/-- Closed instance of `c4_amended`: the casual preference accepts the
casual-tagged top. -/
theorem c4_amended_witness : eligible prefsCasual whiteTee = true :=
  (c4_amended prefsCasual whiteTee).mpr
    ⟨Or.inr ⟨["casual"], rfl, by decide⟩, Or.inr (Or.inl rfl)⟩

/-- C5 counterexample: the monolithic gateway's generate endpoint answers an
empty wardrobe with the 400 error `'No clothing items found. Add some items
first!'`, not with a success outcome. -/
theorem c5_counterexample :
    Gateway.outfitsGenerate "u1" [] none none none randZero "2026-02-03" =
      Gateway.GwResponse.noItems ∧
    Gateway.GwResponse.status Gateway.GwResponse.noItems = 400 :=
  ⟨rfl, rfl⟩

/-- C5 amended: the outfit service's generate handler answers a successful
zero-item fetch with a 200 success carrying an empty candidate list and the
explanatory message, and the routing gateway passes any downstream response
through unchanged; the monolithic gateway's endpoint instead returns a 400
error (see the counterexample). -/
theorem c5_amended :
    (∀ (prefs : Preferences) (rand : ℕ → ℚ) (clock : ℕ → ℕ),
      generateHandler (.ok true []) prefs rand clock =
        .success []
          (some "No clothing items found. Add some items to your wardrobe first!")) ∧
    (∀ (prefs : Preferences) (rand : ℕ → ℚ) (clock : ℕ → ℕ),
      (generateHandler (.ok true []) prefs rand clock).status = 200) ∧
    (∀ (s : ℕ) (b : String), Gateway.proxyRequest (.response s b) = ⟨s, b⟩) :=
  ⟨fun _ _ _ => rfl, fun _ _ _ => rfl, fun _ _ => rfl⟩

/-- C6: when the wardrobe fetch fails with `ECONNREFUSED` or `ENOTFOUND`,
the outfit service's generate handler returns the 503 unavailable response
without consulting the composer (the result is the same for every
preference, randomness stream and clock), the 503 status is distinct from
the generic 500, and the routing gateway maps a refused connection to its
own 503 reply. -/
theorem c6_unavailable :
    (∀ (prefs : Preferences) (rand : ℕ → ℚ) (clock : ℕ → ℕ),
      generateHandler .errConnRefused prefs rand clock = .unavailable) ∧
    (∀ (prefs : Preferences) (rand : ℕ → ℚ) (clock : ℕ → ℕ),
      generateHandler .errNotFound prefs rand clock = .unavailable) ∧
    GenResponse.status .unavailable = 503 ∧
    GenResponse.status .serverError = 500 ∧
    Gateway.proxyRequest .connRefused =
      ⟨503, "Service temporarily unavailable"⟩ :=
  ⟨fun _ _ _ => rfl, fun _ _ _ => rfl, rfl, rfl, rfl⟩

/-- C7 counterexample: the composer also reads `Date.now()` for candidate
ids, so fixing the randomness stream alone does not make it deterministic —
two calls with identical items, preferences and randomness but different
clock readings return candidates with different ids. -/
theorem c7_counterexample :
    (((generateOutfitRecommendation [whiteTee, blueJeans] prefsCasual randZero
        clockZero).headI).id ==
      ((generateOutfitRecommendation [whiteTee, blueJeans] prefsCasual randZero
        clockOne).headI).id) = false := by
  have h0 : ((generateOutfitRecommendation [whiteTee, blueJeans] prefsCasual
      randZero clockZero).headI).id = "outfit_" ++ toString 0 ++ "_" ++
      toString 0 := by
    simp [generateOutfitRecommendation, availableItems, eligible,
      matchesOccasion, matchesSeason, includesOpt, categorize, genLoop,
      buildOutfit, optPick, coinPick, pick_zero, randZero, clockZero,
      whiteTee, blueJeans, prefsCasual, topCats, bottomCats, outerwearCats,
      footwearCats, accessoryCats, zero_gt_half_false,
      zero_gt_threeTenths_false]
  have h1 : ((generateOutfitRecommendation [whiteTee, blueJeans] prefsCasual
      randZero clockOne).headI).id = "outfit_" ++ toString 1 ++ "_" ++
      toString 0 := by
    simp [generateOutfitRecommendation, availableItems, eligible,
      matchesOccasion, matchesSeason, includesOpt, categorize, genLoop,
      buildOutfit, optPick, coinPick, pick_zero, randZero, clockOne,
      whiteTee, blueJeans, prefsCasual, topCats, bottomCats, outerwearCats,
      footwearCats, accessoryCats, zero_gt_half_false,
      zero_gt_threeTenths_false]
  rw [h0, h1]
  decide

/-- C7 amended: with both effect sources injected — the randomness stream
and the `Date.now()` clock — the composer is deterministic: equal item
sequences and equal preferences give equal outputs. -/
theorem c7_amended (items1 items2 : List Item) (prefs1 prefs2 : Preferences)
    (rand : ℕ → ℚ) (clock : ℕ → ℕ) (h1 : items1 = items2)
    (h2 : prefs1 = prefs2) :
    generateOutfitRecommendation items1 prefs1 rand clock =
      generateOutfitRecommendation items2 prefs2 rand clock := by
  rw [h1, h2]

/-- Closed instance of `c7_amended` at Scenario A's wardrobe. -/
theorem c7_amended_witness :
    generateOutfitRecommendation [whiteTee, blueJeans] prefsCasual randZero
      clockZero =
    generateOutfitRecommendation [whiteTee, blueJeans] prefsCasual randZero
      clockZero :=
  c7_amended [whiteTee, blueJeans] [whiteTee, blueJeans] prefsCasual
    prefsCasual randZero clockZero rfl rfl

end Vyom

namespace Vyom

/-! ### Scenario A: one top, one bottom, nothing else -/

theorem buildOutfit_pair (t b : Item) (occ sea sty : String) (rand : ℕ → ℚ)
    (clock : ℕ → ℕ) (i k : ℕ) (hr : ValidRand rand) :
    ((buildOutfit ⟨[t], [b], [], [], []⟩ occ sea sty rand clock i k).1).items =
      [t, b] := by
  rw [buildOutfit_items]
  simp [optPick, coinPick,
    pick_singleton (x := t) (hr (k + 1)).1 (hr (k + 1)).2,
    pick_singleton (x := b) (hr (k + 1 + 1)).1 (hr (k + 1 + 1)).2]

theorem genLoop_pair_cons (t b : Item) (occ sea sty : String) (rand : ℕ → ℚ)
    (clock : ℕ → ℕ) (i fuel k : ℕ) (hr : ValidRand rand) :
    genLoop ⟨[t], [b], [], [], []⟩ occ sea sty rand clock i (fuel + 1) k =
      (buildOutfit ⟨[t], [b], [], [], []⟩ occ sea sty rand clock i k).1 ::
        genLoop ⟨[t], [b], [], [], []⟩ occ sea sty rand clock (i + 1) fuel
          (buildOutfit ⟨[t], [b], [], [], []⟩ occ sea sty rand clock i k).2 := by
  have hlen :
      ((buildOutfit ⟨[t], [b], [], [], []⟩ occ sea sty rand clock i
        k).1).items.length = 2 := by
    rw [buildOutfit_pair t b occ sea sty rand clock i k hr]
    rfl
  simp only [genLoop]
  rw [if_pos hlen.ge]

/-- C8: on the wardrobe of Scenario A — the casual top `"White Tee"` and the
casual bottom `"Blue Jeans"` with the casual occasion preference — every
valid randomness trace and every clock yield at least one candidate
containing both items. -/
theorem c8_scenarioA (rand : ℕ → ℚ) (clock : ℕ → ℕ) (hr : ValidRand rand) :
    ∃ o ∈ generateOutfitRecommendation [whiteTee, blueJeans] prefsCasual
      rand clock, whiteTee ∈ o.items ∧ blueJeans ∈ o.items := by
  have hcats : categorize (availableItems [whiteTee, blueJeans] prefsCasual) =
      ⟨[whiteTee], [blueJeans], [], [], []⟩ := by decide
  have hitems := buildOutfit_pair whiteTee blueJeans "casual" "all-year"
    "comfortable" rand clock 0 0 hr
  refine ⟨(buildOutfit ⟨[whiteTee], [blueJeans], [], [], []⟩ "casual"
    "all-year" "comfortable" rand clock 0 0).1, ?_, ?_, ?_⟩
  · apply List.mem_filter.mpr
    refine ⟨?_, ?_⟩
    · show _ ∈ genLoop (categorize (availableItems [whiteTee, blueJeans]
        prefsCasual)) (prefsCasual.occasion.getD "casual")
        (prefsCasual.season.getD "all-year")
        (prefsCasual.style.getD "comfortable") rand clock 0 3 0
      rw [hcats]
      show _ ∈ genLoop ⟨[whiteTee], [blueJeans], [], [], []⟩ "casual"
        "all-year" "comfortable" rand clock 0 (2 + 1) 0
      rw [genLoop_pair_cons whiteTee blueJeans "casual" "all-year"
        "comfortable" rand clock 0 2 0 hr]
      exact List.mem_cons_self _ _
    · rw [hitems]
      decide
  · rw [hitems]
    simp
  · rw [hitems]
    simp

/-- Closed instance of `c8_scenarioA` at the all-zero randomness trace. -/
theorem c8_witness :
    ∃ o ∈ generateOutfitRecommendation [whiteTee, blueJeans] prefsCasual
      randZero clockZero, whiteTee ∈ o.items ∧ blueJeans ∈ o.items :=
  c8_scenarioA randZero clockZero randZero_valid

/-- C9: every candidate the composer returns holds at least two items — the
loop only keeps a candidate when `outfit.items.length >= 2`, and the final
filter only removes shorter ones. -/
theorem c9_min_two_items (clothingItems : List Item) (prefs : Preferences)
    (rand : ℕ → ℚ) (clock : ℕ → ℕ) (o : Outfit)
    (ho : o ∈ generateOutfitRecommendation clothingItems prefs rand clock) :
    2 ≤ o.items.length :=
  (mem_genLoop (mem_gen_unfold ho)).2

/-- Closed instance of `c9_min_two_items` at Scenario A's first candidate. -/
theorem c9_witness :
    2 ≤ ((generateOutfitRecommendation [whiteTee, blueJeans] prefsCasual
      randZero clockZero).headI).items.length :=
  c9_min_two_items [whiteTee, blueJeans] prefsCasual randZero clockZero _
    (headI_mem_of_ne_nil genA_ne_nil)

/-- C10: every item inside any returned candidate comes from the input item
sequence and passed the occasion/season eligibility filter. -/
theorem c10_items_from_input (clothingItems : List Item) (prefs : Preferences)
    (rand : ℕ → ℚ) (clock : ℕ → ℕ) (o : Outfit) (it : Item)
    (ho : o ∈ generateOutfitRecommendation clothingItems prefs rand clock)
    (hit : it ∈ o.items) :
    it ∈ clothingItems ∧ eligible prefs it = true := by
  obtain ⟨⟨j, k2, rfl⟩, _⟩ := mem_genLoop (mem_gen_unfold ho)
  have h5 := mem_buildOutfit_items hit
  have hav : it ∈ availableItems clothingItems prefs := by
    rcases h5 with h | h | h | h | h <;> exact (List.mem_filter.mp h).1
  unfold availableItems at hav
  have := List.mem_filter.mp hav
  exact ⟨this.1, by simpa using this.2⟩

/-- Closed instance of `c10_items_from_input` at Scenario A's first
candidate's first item. -/
theorem c10_witness :
    whiteTee ∈ ([whiteTee, blueJeans] : List Item) ∧
    eligible prefsCasual whiteTee = true :=
  c10_items_from_input [whiteTee, blueJeans] prefsCasual randZero clockZero
    ((generateOutfitRecommendation [whiteTee, blueJeans] prefsCasual randZero
      clockZero).headI) whiteTee (headI_mem_of_ne_nil genA_ne_nil)
    (by rw [genA_head_items]; exact List.mem_cons_self _ _)

end Vyom
